import Mathlib

/-!
Verification of the AIStore placement / mountpath-lifecycle slice.

Shallow embedding of:
  * `hrwTarget` (dfc/hrw.go): rendezvous (highest-random-weight) selection of the
    target owning an object name, built on xxHash32 with seed `LCG32 = 1103515245`;
  * the `fsprungroup` mountpath-lifecycle wrappers (ais):
    `enableMountpath`, `disableMountpath`, `addMountpath`, `removeMountpath`,
    their event helpers `addMpathEvent`, `delMpathEvent`, `checkZeroMountpaths`,
    `checkEnable`, and the metadata-redistribution hook `redistributeMD`.

Machine integers are modelled as `Nat` reduced `% 2^32` at every operation that
can overflow.  Strings are hashed byte-wise through their character codes, which
coincides with Go's UTF-8 bytes on ASCII inputs (all concrete inputs below are
ASCII).  Go `error` values are `Option String` (`none` = nil error).
-/

/-! ### xxHash32 (github.com/OneOfOne/xxhash, ChecksumString32S) -/

def m32 : Nat := 4294967296

def prime32x1 : Nat := 2654435761
def prime32x2 : Nat := 2246822519
def prime32x3 : Nat := 3266489917
def prime32x4 : Nat := 668265263
def prime32x5 : Nat := 374761393

/-- 32-bit left rotation (input assumed `< 2^32`). -/
def rotl32 (x r : Nat) : Nat :=
  ((x <<< r) ||| (x >>> (32 - r))) % m32

/-- Little-endian 32-bit word from four bytes. -/
def le32 (a b c d : Nat) : Nat :=
  a + b * 256 + c * 65536 + d * 16777216

/-- One accumulator round of xxHash32. -/
def xxhRound (acc lane : Nat) : Nat :=
  (rotl32 ((acc + lane * prime32x2) % m32) 13 * prime32x1) % m32

/-- Consume 16-byte stripes, updating the four lane accumulators; returns the
accumulators and the remaining (< 16) bytes. -/
def xxhStripes : List Nat → Nat → Nat → Nat → Nat → Nat × Nat × Nat × Nat × List Nat
  | b0 :: b1 :: b2 :: b3 :: b4 :: b5 :: b6 :: b7 ::
    b8 :: b9 :: b10 :: b11 :: b12 :: b13 :: b14 :: b15 :: rest, v1, v2, v3, v4 =>
      xxhStripes rest
        (xxhRound v1 (le32 b0 b1 b2 b3))
        (xxhRound v2 (le32 b4 b5 b6 b7))
        (xxhRound v3 (le32 b8 b9 b10 b11))
        (xxhRound v4 (le32 b12 b13 b14 b15))
  | l, v1, v2, v3, v4 => (v1, v2, v3, v4, l)

/-- Consume remaining 4-byte words of the tail. -/
def xxhTail4 : List Nat → Nat → Nat × List Nat
  | b0 :: b1 :: b2 :: b3 :: rest, h =>
      xxhTail4 rest ((rotl32 ((h + le32 b0 b1 b2 b3 * prime32x3) % m32) 17 * prime32x4) % m32)
  | l, h => (h, l)

/-- Consume remaining single bytes of the tail. -/
def xxhTail1 : List Nat → Nat → Nat
  | b :: rest, h =>
      xxhTail1 rest ((rotl32 ((h + b * prime32x5) % m32) 11 * prime32x1) % m32)
  | [], h => h

/-- Final avalanche mix of xxHash32. -/
def xxhFinal (h0 : Nat) : Nat :=
  let h1 := h0 ^^^ (h0 >>> 15)
  let h2 := (h1 * prime32x2) % m32
  let h3 := h2 ^^^ (h2 >>> 13)
  let h4 := (h3 * prime32x3) % m32
  h4 ^^^ (h4 >>> 16)

/-- xxHash32 of a byte sequence with a 32-bit seed. -/
def xxh32 (data : List Nat) (seed : Nat) : Nat :=
  if 16 ≤ data.length then
    let s := xxhStripes data
      ((seed + prime32x1 + prime32x2) % m32)
      ((seed + prime32x2) % m32)
      (seed % m32)
      ((seed + (m32 - prime32x1)) % m32)
    let h0 := (rotl32 s.1 1 + rotl32 s.2.1 7 + rotl32 s.2.2.1 12 + rotl32 s.2.2.2.1 18) % m32
    let h1 := (h0 + data.length) % m32
    let t := xxhTail4 s.2.2.2.2 h1
    xxhFinal (xxhTail1 t.2 t.1)
  else
    let h1 := ((seed + prime32x5) % m32 + data.length) % m32
    let t := xxhTail4 data h1
    xxhFinal (xxhTail1 t.2 t.1)

/-- Bytes of a string, via character codes (= Go's UTF-8 bytes on ASCII). -/
def strBytes (s : String) : List Nat :=
  s.data.map Char.toNat

/-! ### hrwTarget (dfc/hrw.go) -/

/-- `const LCG32 = 1103515245` (dfc/hrw.go). -/
def LCG32 : Nat := 1103515245

/-- Cluster-map node value.  The dfc `daemonInfo` struct is not under src;
its `DaemonID` field mirrors the map key.  Modelled from the spec: the spec's
data model gives every node a `flags` bitset with `Maintenance` and
`Decommission` bits, so the embedding carries it. -/
structure daemonInfo where
  DaemonID : String
  flags : Nat
deriving DecidableEq, Repr

/-- Modelled from the spec: the `Maintenance` flag bit. -/
def FlagMaintenance : Nat := 1

/-- Modelled from the spec: the `Decommission` flag bit. -/
def FlagDecommission : Nat := 2

/-- Whether a node's flags include `Decommission`. -/
def hasDecommission (v : daemonInfo) : Bool :=
  v.flags &&& FlagDecommission ≠ 0

/-- HRW weight of target id `id` for object `name`:
`xxhash.ChecksumString32S(id+":"+name, LCG32)`. -/
def weight (id name : String) : Nat :=
  xxh32 (strBytes (id ++ ":" ++ name)) LCG32

/-- The loop body of `hrwTarget`: iterate the cluster map (the list order is
the map's iteration order) carrying `max` and the current winner `si`
(`none` = the Go nil pointer); `cs > max` updates both. -/
def hrwTargetLoop (name : String) :
    List (String × daemonInfo) → Nat → Option daemonInfo → Option daemonInfo
  | [], _, si => si
  | (id, sinfo) :: rest, max, si =>
      let cs := weight id name
      if max < cs then hrwTargetLoop name rest cs (some sinfo)
      else hrwTargetLoop name rest max si

/-- `hrwTarget(name, smap)` (dfc/hrw.go): highest-random-weight choice of the
target owning `name`.  `si` starts as Go's nil pointer (`none`), `max` as 0. -/
def hrwTarget (name : String) (smap : List (String × daemonInfo)) : Option daemonInfo :=
  hrwTargetLoop name smap 0 none

/-! ### Mountpath lifecycle (ais fsprungroup) -/

/-- `fs.MountpathInfo` is not under src.  Modelled from the spec: a mountpath
has a canonical `Path` (unique key) and an opaque filesystem identity. -/
structure MountpathInfo where
  Path : String
  Fsid : Nat
deriving DecidableEq, Repr

/-- Shape of a Go return-value tuple of a lifecycle wrapper:
`boolErr` for the two-value `(changed bool, err error)` signatures
(`enableMountpath`, `disableMountpath`), `errOnly` for the single-value
`(err error)` signatures (`addMountpath`, `removeMountpath`). -/
inductive GoRet where
  | boolErr (changed : Bool) (err : Option String)
  | errOnly (err : Option String)
deriving DecidableEq, Repr

/-- Observable side effects of a lifecycle operation, in program order.
Log lines with different format strings are different constructors. -/
inductive Event where
  | abortAllMpathXactions
  | resilver
  | makeNCopies (tag : String)
  | evictLomCache (p : String)
  | logMpath (action p : String)            -- "%s mountpath %s"
  | logFirstMpath (action p : String)       -- "%s the first mountpath %s"
  | selfEnable                              -- g.t.enable()
  | logReRegisterFail (si e : String)       -- "Failed to re-register %s (self), err: %v"
  | selfDisable                             -- g.t.disable()
  | logZeroMpathFail (action si e : String) -- "%s the last available mountpath, failed to unregister ..."
  | logZeroMpathOk (action si : String)     -- "%s the last available mountpath and unregistered ..."
deriving DecidableEq, Repr

/-- Ambient collaborators of `fsprungroup`, taken as oracle inputs:
the config's `Resilver.Enabled`, the target's own id string `si`
(for log lines), and the outcomes of the registration RPCs
`g.t.enable()` / `g.t.disable()` (`none` = success). -/
structure Env where
  resilverEnabled : Bool
  si : String
  enableErr : Option String
  disableErr : Option String
deriving DecidableEq, Repr

/-- Outcome of the underlying FS-Registry mutator (`fs.Add` / `fs.Remove` /
`fs.Enable` / `fs.Disable`), taken as an oracle input: the returned descriptor
(`none` = Go nil, i.e. no-op), the returned error, and the `available` snapshot
that `fs.Get()` yields after the mutation. -/
structure MutOutcome where
  mpath : Option MountpathInfo
  err : Option String
  avail : List String
deriving DecidableEq, Repr

/-- Full observable result of one wrapper call: the Go return tuple, the GFN
flag after the call, whether the wrapper called `Deactivate()`, and the events
it fired. -/
structure WrapOut where
  ret : GoRet
  gfn : Bool
  gfnDeactivated : Bool
  events : List Event
deriving DecidableEq, Repr

/-- Action-name constants of fsprungroup. -/
def addMpathAct : String := "Added"

def enableMpathAct : String := "Enabled"

def removeMpathAct : String := "Removed"

def disableMpathAct : String := "Disabled"

/-- The anonymous goroutine dispatched after a real transition:
`if Resilver.Enabled { runResilver }; RenewMakeNCopies(tag)`. -/
def goResilverMNC (env : Env) (tag : String) : List Event :=
  (if env.resilverEnabled then [Event.resilver] else []) ++ [Event.makeNCopies tag]

/-- `checkEnable(action, mpath)`: log the nth-mountpath line when more than one
mountpath is available, otherwise log the first-mountpath line and re-register
the target, logging (not returning) an RPC failure. -/
def checkEnable (env : Env) (avail : List String) (action mpath : String) : List Event :=
  if 1 < avail.length then [Event.logMpath action mpath]
  else
    Event.logFirstMpath action mpath ::
      Event.selfEnable ::
        (match env.enableErr with
         | some e => [Event.logReRegisterFail env.si e]
         | none => [])

/-- `checkZeroMountpaths(action)`: when no mountpath is left, unregister the
target (self) and log success or failure distinctly; returns whether the
zero-mountpath case was detected. -/
def checkZeroMountpaths (env : Env) (avail : List String) (action : String) :
    Bool × List Event :=
  if 0 < avail.length then (false, [])
  else
    (true,
      Event.selfDisable ::
        (match env.disableErr with
         | some e => [Event.logZeroMpathFail action env.si e]
         | none => [Event.logZeroMpathOk action env.si]))

/-- `addMpathEvent(action, mpath)`: abort mountpath xactions, dispatch the
resilver + MakeNCopies goroutine, then `checkEnable`. -/
def addMpathEvent (env : Env) (avail : List String) (action : String)
    (mp : MountpathInfo) : List Event :=
  Event.abortAllMpathXactions ::
    (goResilverMNC env "add-mp" ++ checkEnable env avail action mp.Path)

/-- `delMpathEvent(action, mpath)`: abort mountpath xactions, evict the LOM
cache, then either detect zero mountpaths (and stop) or dispatch the
resilver + MakeNCopies goroutine. -/
def delMpathEvent (env : Env) (avail : List String) (action : String)
    (mp : MountpathInfo) : List Event :=
  Event.abortAllMpathXactions :: Event.evictLomCache mp.Path ::
    (let r := checkZeroMountpaths env avail action
     if r.1 then r.2 else r.2 ++ goResilverMNC env "del-mp")

/-- `enableMountpath(mpath) (enabled bool, err error)`.
`gfnActive := g.t.gfn.local.Activate()` returns the previous flag value and
sets the flag; on error or nil descriptor the wrapper deactivates iff its own
activation turned the flag on, and returns `(false, err)`. -/
def enableMountpath (env : Env) (gfn0 : Bool) (m : MutOutcome) : WrapOut :=
  let gfnActive := gfn0
  match m.mpath, m.err with
  | some mp, none =>
      { ret := GoRet.boolErr true none, gfn := true, gfnDeactivated := false,
        events := addMpathEvent env m.avail enableMpathAct mp }
  | _, e =>
      if !gfnActive then
        { ret := GoRet.boolErr false e, gfn := false, gfnDeactivated := true, events := [] }
      else
        { ret := GoRet.boolErr false e, gfn := true, gfnDeactivated := false, events := [] }

/-- `disableMountpath(mpath) (disabled bool, err error)`. -/
def disableMountpath (env : Env) (gfn0 : Bool) (m : MutOutcome) : WrapOut :=
  let gfnActive := gfn0
  match m.mpath, m.err with
  | some mp, none =>
      { ret := GoRet.boolErr true none, gfn := true, gfnDeactivated := false,
        events := delMpathEvent env m.avail disableMpathAct mp }
  | _, e =>
      if !gfnActive then
        { ret := GoRet.boolErr false e, gfn := false, gfnDeactivated := true, events := [] }
      else
        { ret := GoRet.boolErr false e, gfn := true, gfnDeactivated := false, events := [] }

/-- `addMountpath(mpath) (err error)` — note the single-value return. -/
def addMountpath (env : Env) (gfn0 : Bool) (m : MutOutcome) : WrapOut :=
  let gfnActive := gfn0
  match m.mpath, m.err with
  | some mp, none =>
      { ret := GoRet.errOnly none, gfn := true, gfnDeactivated := false,
        events := addMpathEvent env m.avail addMpathAct mp }
  | _, e =>
      if !gfnActive then
        { ret := GoRet.errOnly e, gfn := false, gfnDeactivated := true, events := [] }
      else
        { ret := GoRet.errOnly e, gfn := true, gfnDeactivated := false, events := [] }

/-- `removeMountpath(mpath) (err error)` — note the single-value return. -/
def removeMountpath (env : Env) (gfn0 : Bool) (m : MutOutcome) : WrapOut :=
  let gfnActive := gfn0
  match m.mpath, m.err with
  | some mp, none =>
      { ret := GoRet.errOnly none, gfn := true, gfnDeactivated := false,
        events := delMpathEvent env m.avail removeMpathAct mp }
  | _, e =>
      if !gfnActive then
        { ret := GoRet.errOnly e, gfn := false, gfnDeactivated := true, events := [] }
      else
        { ret := GoRet.errOnly e, gfn := true, gfnDeactivated := false, events := [] }

/-! ### redistributeMD -/

/-- Durable-metadata actions attempted by `redistributeMD`. -/
inductive MDStep where
  | persistBMD
  | createVMD (tid : String)
deriving DecidableEq, Repr

/-- Result of one `redistributeMD` run: the steps attempted, in order, and
`exitMsg = some msg` when `cos.ExitLogf` terminated the process (the Go
function itself returns nothing — there is no error return channel). -/
structure MDOut where
  steps : List MDStep
  exitMsg : Option String
deriving DecidableEq, Repr

/-- Oracle inputs of `redistributeMD`: `hasEnoughBMDCopies()` (modelled from
the spec: the BMD-redundancy predicate is not under src), the outcome of
`g.t.owner.bmd.persist()`, this target's id, and the outcome of
`fs.CreateNewVMD(id)` (`none` = success). -/
structure MDEnv where
  hasEnoughBMDCopies : Bool
  bmdPersistErr : Option String
  tid : String
  vmdErr : Option String
deriving DecidableEq, Repr

/-- `redistributeMD()`: persist BMD when redundancy is not met (exiting on
failure), then create and persist a new VMD stamped with this target's id
(exiting on failure). -/
def redistributeMD (env : MDEnv) : MDOut :=
  if !env.hasEnoughBMDCopies then
    match env.bmdPersistErr with
    | some e => { steps := [MDStep.persistBMD], exitMsg := some e }
    | none =>
      match env.vmdErr with
      | some e => { steps := [MDStep.persistBMD, MDStep.createVMD env.tid], exitMsg := some e }
      | none => { steps := [MDStep.persistBMD, MDStep.createVMD env.tid], exitMsg := none }
  else
    match env.vmdErr with
    | some e => { steps := [MDStep.createVMD env.tid], exitMsg := some e }
    | none => { steps := [MDStep.createVMD env.tid], exitMsg := none }

/-! ### Lemmas about the hrwTarget loop -/

/-- If every remaining weight is at most the running maximum, the loop keeps
its accumulator. -/
theorem hrwTargetLoop_skip (name : String) (l : List (String × daemonInfo))
    (mx : Nat) (si : Option daemonInfo)
    (h : ∀ p ∈ l, weight p.1 name ≤ mx) :
    hrwTargetLoop name l mx si = si := by
  induction l generalizing mx si with
  | nil => rfl
  | cons hd rest ih =>
      obtain ⟨a, w⟩ := hd
      have ha : weight a name ≤ mx := h (a, w) (List.mem_cons_self _ _)
      simp only [hrwTargetLoop]
      rw [if_neg (by omega)]
      exact ih mx si fun p hp => h p (List.mem_cons_of_mem _ hp)

/-- If `(id, v)` is in the remaining list, its weight beats the running maximum
and strictly beats every other id's weight, the loop ends on `some v`. -/
theorem hrwTargetLoop_max (name id : String) (v : daemonInfo)
    (l : List (String × daemonInfo)) :
    ∀ (mx : Nat) (si : Option daemonInfo),
      (id, v) ∈ l → mx < weight id name →
      (∀ p ∈ l, p.1 ≠ id → weight p.1 name < weight id name) →
      (l.map Prod.fst).Nodup →
      hrwTargetLoop name l mx si = some v := by
  induction l with
  | nil => intro mx si hmem _ _ _; simp at hmem
  | cons hd rest ih =>
      intro mx si hmem hgt hmax hnd
      obtain ⟨a, w⟩ := hd
      simp only [List.map_cons, List.nodup_cons] at hnd
      obtain ⟨hna, hndr⟩ := hnd
      by_cases hai : a = id
      · subst hai
        have hv : w = v := by
          rcases List.mem_cons.mp hmem with h1 | h2
          · exact (Prod.mk.injEq _ _ _ _ ▸ h1).2.symm
          · exact absurd (List.mem_map_of_mem Prod.fst h2) hna
        subst hv
        simp only [hrwTargetLoop]
        rw [if_pos hgt]
        apply hrwTargetLoop_skip
        intro p hp
        have hpa : p.1 ≠ a := by
          intro hcon
          exact hna (hcon ▸ List.mem_map_of_mem Prod.fst hp)
        exact Nat.le_of_lt (hmax p (List.mem_cons_of_mem _ hp) hpa)
      · have hmem2 : (id, v) ∈ rest := by
          rcases List.mem_cons.mp hmem with h1 | h2
          · exact absurd (Prod.mk.injEq _ _ _ _ ▸ h1).1.symm hai
          · exact h2
        have hwa : weight a name < weight id name :=
          hmax (a, w) (List.mem_cons_self _ _) hai
        have hmax2 : ∀ p ∈ rest, p.1 ≠ id → weight p.1 name < weight id name :=
          fun p hp => hmax p (List.mem_cons_of_mem _ hp)
        simp only [hrwTargetLoop]
        by_cases hb : mx < weight a name
        · rw [if_pos hb]
          exact ih _ _ hmem2 hwa hmax2 hndr
        · rw [if_neg hb]
          exact ih _ _ hmem2 hgt hmax2 hndr

/-- Once the accumulator is `some`, the loop result stays `some`. -/
theorem hrwTargetLoop_isSome (name : String) (l : List (String × daemonInfo))
    (mx : Nat) (v0 : daemonInfo) :
    ∃ v, hrwTargetLoop name l mx (some v0) = some v := by
  induction l generalizing mx v0 with
  | nil => exact ⟨v0, rfl⟩
  | cons hd rest ih =>
      obtain ⟨a, w⟩ := hd
      simp only [hrwTargetLoop]
      by_cases hb : mx < weight a name
      · rw [if_pos hb]; exact ih _ w
      · rw [if_neg hb]; exact ih _ v0

/-- The loop result is either the starting accumulator or one of the values
of the list. -/
theorem hrwTargetLoop_mem (name : String) (l : List (String × daemonInfo))
    (mx : Nat) (si : Option daemonInfo) :
    hrwTargetLoop name l mx si = si ∨
      ∃ v ∈ l.map Prod.snd, hrwTargetLoop name l mx si = some v := by
  induction l generalizing mx si with
  | nil => left; rfl
  | cons hd rest ih =>
      obtain ⟨a, w⟩ := hd
      simp only [hrwTargetLoop]
      by_cases hb : mx < weight a name
      · rw [if_pos hb]
        rcases ih (weight a name) (some w) with h | ⟨v, hv, he⟩
        · right; exact ⟨w, by simp, h⟩
        · right; exact ⟨v, by simp [List.mem_cons_of_mem, hv], he⟩
      · rw [if_neg hb]
        rcases ih mx si with h | ⟨v, hv, he⟩
        · left; exact h
        · right; exact ⟨v, by simp [List.mem_cons_of_mem, hv], he⟩

/-- If some remaining weight beats the running maximum, the loop ends on
`some` value. -/
theorem hrwTargetLoop_pos (name : String) (l : List (String × daemonInfo))
    (mx : Nat) (si : Option daemonInfo)
    (h : ∃ p ∈ l, mx < weight p.1 name) :
    ∃ v, hrwTargetLoop name l mx si = some v := by
  induction l generalizing mx si with
  | nil => simp at h
  | cons hd rest ih =>
      obtain ⟨a, w⟩ := hd
      simp only [hrwTargetLoop]
      by_cases hb : mx < weight a name
      · rw [if_pos hb]; exact hrwTargetLoop_isSome name rest _ w
      · rw [if_neg hb]
        apply ih
        rcases h with ⟨p, hp, hw⟩
        rcases List.mem_cons.mp hp with h1 | h2
        · rw [h1] at hw; exact absurd hw hb
        · exact ⟨p, h2, hw⟩

/-- The loop never reads the node values: transforming every value transforms
the result pointwise. -/
theorem hrwTargetLoop_mapval (name : String) (φ : daemonInfo → daemonInfo)
    (l : List (String × daemonInfo)) (mx : Nat) (si : Option daemonInfo) :
    hrwTargetLoop name (l.map fun p => (p.1, φ p.2)) mx (si.map φ) =
      (hrwTargetLoop name l mx si).map φ := by
  induction l generalizing mx si with
  | nil => rfl
  | cons hd rest ih =>
      obtain ⟨a, w⟩ := hd
      simp only [List.map_cons, hrwTargetLoop]
      by_cases hb : mx < weight a name
      · rw [if_pos hb, if_pos hb]
        exact ih (weight a name) (some w)
      · rw [if_neg hb, if_neg hb]
        exact ih mx si

/-! ### Claims C1, C3, C4 -/

/-- C1 (amended): when one target's weight strictly beats every other target's
weight and is nonzero, `hrwTarget` returns exactly that target, for the map in
any iteration order — so the decision is permutation-stable away from weight
ties.  (As stated, C1 fails: the code has no lexicographic tie-break, see the
counterexample with two ids of equal weight.) -/
theorem hrwTarget_strictmax (name : String) (l l2 : List (String × daemonInfo))
    (id : String) (v : daemonInfo)
    (hperm : l.Perm l2) (hmem : (id, v) ∈ l) (hpos : 0 < weight id name)
    (hmax : ∀ p ∈ l, p.1 ≠ id → weight p.1 name < weight id name)
    (hnd : (l.map Prod.fst).Nodup) :
    hrwTarget name l = some v ∧ hrwTarget name l2 = some v := by
  constructor
  · exact hrwTargetLoop_max name id v l 0 none hmem hpos hmax hnd
  · exact hrwTargetLoop_max name id v l2 0 none (hperm.subset hmem) hpos
      (fun p hp => hmax p (hperm.symm.subset hp))
      (((hperm.map Prod.fst).nodup_iff).mp hnd)

/-- Witness for C1 (amended) at a concrete two-target map and its swap:
`weight "t1" "obj" = 2478204519 > weight "t2" "obj" = 1951548221`. -/
theorem hrwTarget_strictmax_wit :
    hrwTarget "obj" [("t1", ⟨"t1", 0⟩), ("t2", ⟨"t2", 0⟩)] = some ⟨"t1", 0⟩ ∧
    hrwTarget "obj" [("t2", ⟨"t2", 0⟩), ("t1", ⟨"t1", 0⟩)] = some ⟨"t1", 0⟩ :=
  hrwTarget_strictmax "obj"
    [("t1", daemonInfo.mk "t1" 0), ("t2", daemonInfo.mk "t2" 0)]
    [("t2", daemonInfo.mk "t2" 0), ("t1", daemonInfo.mk "t1" 0)]
    "t1" (daemonInfo.mk "t1" 0)
    (List.Perm.swap ("t2", daemonInfo.mk "t2" 0) ("t1", daemonInfo.mk "t1" 0) [])
    (by decide) (by decide) (by decide) (by decide)

/-- Counterexample to C1 as stated: `weight "t38814" "x" = weight "t445977" "x"
= 471614574` (an xxHash32 tie), and `hrwTarget` keeps the first-iterated entry
(`cs > max` is strict), so permuting the map's iteration order changes the
chosen target — there is no lexicographic tie-break. -/
theorem hrwTarget_tie_cex :
    List.Perm
      [("t38814", daemonInfo.mk "t38814" 0), ("t445977", daemonInfo.mk "t445977" 0)]
      [("t445977", daemonInfo.mk "t445977" 0), ("t38814", daemonInfo.mk "t38814" 0)] ∧
    weight "t38814" "x" = weight "t445977" "x" ∧
    hrwTarget "x" [("t38814", daemonInfo.mk "t38814" 0), ("t445977", daemonInfo.mk "t445977" 0)] ≠
      hrwTarget "x" [("t445977", daemonInfo.mk "t445977" 0), ("t38814", daemonInfo.mk "t38814" 0)] :=
  ⟨List.Perm.swap ("t445977", daemonInfo.mk "t445977" 0) ("t38814", daemonInfo.mk "t38814" 0) [],
   by decide, by decide⟩

/-- C3 (amended): whenever some entry of the (nonempty) map has nonzero
weight, `hrwTarget` returns a node present in the map.  (As stated, C3 fails:
`si` starts as nil and `cs > max` starts from `max = 0`, so a map whose
weights are all zero yields nil, see the counterexample.) -/
theorem hrwTarget_mem_of_pos (name : String) (smap : List (String × daemonInfo))
    (h : ∃ p ∈ smap, 0 < weight p.1 name) :
    ∃ v, hrwTarget name smap = some v ∧ v ∈ smap.map Prod.snd := by
  obtain ⟨v, hv⟩ := hrwTargetLoop_pos name smap 0 none h
  refine ⟨v, hv, ?_⟩
  rcases hrwTargetLoop_mem name smap 0 none with h0 | ⟨v2, hv2, he⟩
  · rw [h0] at hv
    exact absurd hv (by simp)
  · rw [hv] at he
    injection he with h
    subst h
    exact hv2

/-- Witness for C3 (amended) at a concrete singleton map with nonzero weight. -/
theorem hrwTarget_mem_of_pos_wit :
    ∃ v, hrwTarget "obj" [("t1", daemonInfo.mk "t1" 0)] = some v ∧
      v ∈ [("t1", daemonInfo.mk "t1" 0)].map Prod.snd :=
  hrwTarget_mem_of_pos "obj" [("t1", daemonInfo.mk "t1" 0)]
    ⟨("t1", daemonInfo.mk "t1" 0), by decide, by decide⟩

/-- Counterexample to C3 as stated: `xxh32("t:2ef8ce", 1103515245) = 0`, so on
the nonempty map `{"t"}` with object name `"2ef8ce"` no candidate passes
`cs > max` (with `max` starting at 0) and `hrwTarget` returns the nil pointer
— a node outside the map. -/
theorem hrwTarget_nil_cex :
    ([("t", daemonInfo.mk "t" 0)] ≠ ([] : List (String × daemonInfo))) ∧
    weight "t" "2ef8ce" = 0 ∧
    hrwTarget "2ef8ce" [("t", daemonInfo.mk "t" 0)] = none :=
  ⟨by decide, by decide, by decide⟩

/-- C4 (amended): `hrwTarget` applies no flag filtering at all — it never
inspects the node value, so transforming every node value (for instance
setting or clearing the `Decommission` flag) transforms the result pointwise,
and a decommissioned node is selected exactly as if it were not.  (As stated,
C4 fails: see the counterexample returning a decommissioned node.) -/
theorem hrwTarget_no_flag_filter (name : String) (φ : daemonInfo → daemonInfo)
    (l : List (String × daemonInfo)) :
    hrwTarget name (l.map fun p => (p.1, φ p.2)) = (hrwTarget name l).map φ :=
  hrwTargetLoop_mapval name φ l 0 none

/-- Counterexample to C4 as stated: a node whose flags include `Decommission`
is returned by `hrwTarget` (no filtering happens before the maximum-weight
selection). -/
theorem hrwTarget_decommission_cex :
    hrwTarget "obj" [("t1", daemonInfo.mk "t1" FlagDecommission)] =
      some (daemonInfo.mk "t1" FlagDecommission) ∧
    hasDecommission (daemonInfo.mk "t1" FlagDecommission) = true :=
  ⟨by decide, by decide⟩

/-! ### Lemmas about the lifecycle wrappers -/

/-- Closed form of `enableMountpath` on the no-op / error path. -/
theorem enableMountpath_fail (env : Env) (gfn0 : Bool) (m : MutOutcome)
    (h : m.mpath = none ∨ m.err.isSome) :
    enableMountpath env gfn0 m =
      ⟨GoRet.boolErr false m.err, gfn0, !gfn0, []⟩ := by
  obtain ⟨mp, err, avail⟩ := m
  rcases mp with _ | mpv <;> rcases err with _ | e <;> rcases gfn0 with _ | _ <;>
    first
      | rfl
      | exact absurd h (by simp)

/-- Closed form of `disableMountpath` on the no-op / error path. -/
theorem disableMountpath_fail (env : Env) (gfn0 : Bool) (m : MutOutcome)
    (h : m.mpath = none ∨ m.err.isSome) :
    disableMountpath env gfn0 m =
      ⟨GoRet.boolErr false m.err, gfn0, !gfn0, []⟩ := by
  obtain ⟨mp, err, avail⟩ := m
  rcases mp with _ | mpv <;> rcases err with _ | e <;> rcases gfn0 with _ | _ <;>
    first
      | rfl
      | exact absurd h (by simp)

/-- Closed form of `addMountpath` on the no-op / error path. -/
theorem addMountpath_fail (env : Env) (gfn0 : Bool) (m : MutOutcome)
    (h : m.mpath = none ∨ m.err.isSome) :
    addMountpath env gfn0 m =
      ⟨GoRet.errOnly m.err, gfn0, !gfn0, []⟩ := by
  obtain ⟨mp, err, avail⟩ := m
  rcases mp with _ | mpv <;> rcases err with _ | e <;> rcases gfn0 with _ | _ <;>
    first
      | rfl
      | exact absurd h (by simp)

/-- Closed form of `removeMountpath` on the no-op / error path. -/
theorem removeMountpath_fail (env : Env) (gfn0 : Bool) (m : MutOutcome)
    (h : m.mpath = none ∨ m.err.isSome) :
    removeMountpath env gfn0 m =
      ⟨GoRet.errOnly m.err, gfn0, !gfn0, []⟩ := by
  obtain ⟨mp, err, avail⟩ := m
  rcases mp with _ | mpv <;> rcases err with _ | e <;> rcases gfn0 with _ | _ <;>
    first
      | rfl
      | exact absurd h (by simp)

/-- Closed form of `enableMountpath` on a real transition. -/
theorem enableMountpath_ok (env : Env) (gfn0 : Bool) (m : MutOutcome)
    (mp : MountpathInfo) (herr : m.err = none) (hmp : m.mpath = some mp) :
    enableMountpath env gfn0 m =
      ⟨GoRet.boolErr true none, true, false,
        addMpathEvent env m.avail enableMpathAct mp⟩ := by
  obtain ⟨mp0, err, avail⟩ := m
  subst herr
  subst hmp
  rfl

/-- Closed form of `disableMountpath` on a real transition. -/
theorem disableMountpath_ok (env : Env) (gfn0 : Bool) (m : MutOutcome)
    (mp : MountpathInfo) (herr : m.err = none) (hmp : m.mpath = some mp) :
    disableMountpath env gfn0 m =
      ⟨GoRet.boolErr true none, true, false,
        delMpathEvent env m.avail disableMpathAct mp⟩ := by
  obtain ⟨mp0, err, avail⟩ := m
  subst herr
  subst hmp
  rfl

/-- Closed form of `addMountpath` on a real transition. -/
theorem addMountpath_ok (env : Env) (gfn0 : Bool) (m : MutOutcome)
    (mp : MountpathInfo) (herr : m.err = none) (hmp : m.mpath = some mp) :
    addMountpath env gfn0 m =
      ⟨GoRet.errOnly none, true, false,
        addMpathEvent env m.avail addMpathAct mp⟩ := by
  obtain ⟨mp0, err, avail⟩ := m
  subst herr
  subst hmp
  rfl

/-- Closed form of `removeMountpath` on a real transition. -/
theorem removeMountpath_ok (env : Env) (gfn0 : Bool) (m : MutOutcome)
    (mp : MountpathInfo) (herr : m.err = none) (hmp : m.mpath = some mp) :
    removeMountpath env gfn0 m =
      ⟨GoRet.errOnly none, true, false,
        delMpathEvent env m.avail removeMpathAct mp⟩ := by
  obtain ⟨mp0, err, avail⟩ := m
  subst herr
  subst hmp
  rfl

/-- `delMpathEvent` on an empty `available` snapshot: abort, evict, then the
zero-mountpath self-unregister with its distinct success/failure log, and no
resilver / MakeNCopies dispatch. -/
theorem delMpathEvent_zero (env : Env) (action : String) (mp : MountpathInfo) :
    delMpathEvent env [] action mp =
      Event.abortAllMpathXactions :: Event.evictLomCache mp.Path ::
        Event.selfDisable ::
          (match env.disableErr with
           | some e => [Event.logZeroMpathFail action env.si e]
           | none => [Event.logZeroMpathOk action env.si]) := by
  obtain ⟨r, si, ee, de⟩ := env
  rcases de with _ | e <;> rfl

/-! ### Claims C2, C10 (GFN), C5, C9 (returns) -/

/-- C2 (amended): on every no-op or error exit path of the four mountpath
operations, the GFN flag after the call equals its value before the call.
(As stated — "including successful transitions" — C2 fails: on a real
transition the wrappers leave the GFN active, see the counterexample.) -/
theorem gfn_restored_on_failure (env : Env) (gfn0 : Bool) (m : MutOutcome)
    (h : m.mpath = none ∨ m.err.isSome) :
    (enableMountpath env gfn0 m).gfn = gfn0 ∧
    (disableMountpath env gfn0 m).gfn = gfn0 ∧
    (addMountpath env gfn0 m).gfn = gfn0 ∧
    (removeMountpath env gfn0 m).gfn = gfn0 := by
  rw [enableMountpath_fail env gfn0 m h, disableMountpath_fail env gfn0 m h,
    addMountpath_fail env gfn0 m h, removeMountpath_fail env gfn0 m h]
  exact ⟨rfl, rfl, rfl, rfl⟩

/-- Witness for C2 (amended): a concrete no-op (`fs.Enable` returned nil,
nil) with the GFN initially inactive. -/
theorem gfn_restored_on_failure_wit :
    (enableMountpath ⟨true, "t1", none, none⟩ false ⟨none, none, []⟩).gfn = false ∧
    (disableMountpath ⟨true, "t1", none, none⟩ false ⟨none, none, []⟩).gfn = false ∧
    (addMountpath ⟨true, "t1", none, none⟩ false ⟨none, none, []⟩).gfn = false ∧
    (removeMountpath ⟨true, "t1", none, none⟩ false ⟨none, none, []⟩).gfn = false :=
  gfn_restored_on_failure ⟨true, "t1", none, none⟩ false ⟨none, none, []⟩ (Or.inl rfl)

/-- Counterexample to C2 as stated: with the GFN inactive before the call, a
successful `enableMountpath` (real transition) returns with the GFN active —
the flag after the call differs from its value before. -/
theorem gfn_changed_on_success_cex :
    (enableMountpath ⟨true, "t1", none, none⟩ false
        ⟨some ⟨"/m1", 7⟩, none, ["/m1"]⟩).gfn ≠ false := by
  decide

/-- C10: after every real transition (non-nil descriptor, nil error) each of
the four wrappers returns with the GFN active and without having called
`Deactivate()`, regardless of the GFN state at entry. -/
theorem gfn_active_after_transition (env : Env) (gfn0 : Bool) (m : MutOutcome)
    (mp : MountpathInfo) (herr : m.err = none) (hmp : m.mpath = some mp) :
    ((enableMountpath env gfn0 m).gfn = true ∧
      (enableMountpath env gfn0 m).gfnDeactivated = false) ∧
    ((disableMountpath env gfn0 m).gfn = true ∧
      (disableMountpath env gfn0 m).gfnDeactivated = false) ∧
    ((addMountpath env gfn0 m).gfn = true ∧
      (addMountpath env gfn0 m).gfnDeactivated = false) ∧
    ((removeMountpath env gfn0 m).gfn = true ∧
      (removeMountpath env gfn0 m).gfnDeactivated = false) := by
  rw [enableMountpath_ok env gfn0 m mp herr hmp, disableMountpath_ok env gfn0 m mp herr hmp,
    addMountpath_ok env gfn0 m mp herr hmp, removeMountpath_ok env gfn0 m mp herr hmp]
  exact ⟨⟨rfl, rfl⟩, ⟨rfl, rfl⟩, ⟨rfl, rfl⟩, ⟨rfl, rfl⟩⟩

/-- Witness for C10: a concrete real transition entered with the GFN
inactive. -/
theorem gfn_active_after_transition_wit :
    ((enableMountpath ⟨true, "t1", none, none⟩ false
        ⟨some ⟨"/m1", 7⟩, none, ["/m1"]⟩).gfn = true ∧
      (enableMountpath ⟨true, "t1", none, none⟩ false
        ⟨some ⟨"/m1", 7⟩, none, ["/m1"]⟩).gfnDeactivated = false) ∧
    ((disableMountpath ⟨true, "t1", none, none⟩ false
        ⟨some ⟨"/m1", 7⟩, none, ["/m1"]⟩).gfn = true ∧
      (disableMountpath ⟨true, "t1", none, none⟩ false
        ⟨some ⟨"/m1", 7⟩, none, ["/m1"]⟩).gfnDeactivated = false) ∧
    ((addMountpath ⟨true, "t1", none, none⟩ false
        ⟨some ⟨"/m1", 7⟩, none, ["/m1"]⟩).gfn = true ∧
      (addMountpath ⟨true, "t1", none, none⟩ false
        ⟨some ⟨"/m1", 7⟩, none, ["/m1"]⟩).gfnDeactivated = false) ∧
    ((removeMountpath ⟨true, "t1", none, none⟩ false
        ⟨some ⟨"/m1", 7⟩, none, ["/m1"]⟩).gfn = true ∧
      (removeMountpath ⟨true, "t1", none, none⟩ false
        ⟨some ⟨"/m1", 7⟩, none, ["/m1"]⟩).gfnDeactivated = false) :=
  gfn_active_after_transition ⟨true, "t1", none, none⟩ false
    ⟨some ⟨"/m1", 7⟩, none, ["/m1"]⟩ ⟨"/m1", 7⟩ rfl rfl

/-- C5 (amended): on a no-op (nil descriptor) or a mutator error, every
wrapper fires no event at all, calls `GFN.Deactivate()` exactly when its own
`Activate()` call turned the flag on (i.e. the GFN was inactive at entry),
and returns the mutator's error — as `(false, err)` for the two wrappers with
a `(changed, error)` signature, and as plain `err` for `addMountpath` /
`removeMountpath`, which return only an error.  (As stated — "returns
changed=false together with the mutator's error" for every wrapper — C5
fails on the signatures of `addMountpath` / `removeMountpath`, see the
counterexample.) -/
theorem noop_or_error_quiesce (env : Env) (gfn0 : Bool) (m : MutOutcome)
    (h : m.mpath = none ∨ m.err.isSome) :
    ((enableMountpath env gfn0 m).events = [] ∧
      (enableMountpath env gfn0 m).gfnDeactivated = !gfn0 ∧
      (enableMountpath env gfn0 m).ret = GoRet.boolErr false m.err) ∧
    ((disableMountpath env gfn0 m).events = [] ∧
      (disableMountpath env gfn0 m).gfnDeactivated = !gfn0 ∧
      (disableMountpath env gfn0 m).ret = GoRet.boolErr false m.err) ∧
    ((addMountpath env gfn0 m).events = [] ∧
      (addMountpath env gfn0 m).gfnDeactivated = !gfn0 ∧
      (addMountpath env gfn0 m).ret = GoRet.errOnly m.err) ∧
    ((removeMountpath env gfn0 m).events = [] ∧
      (removeMountpath env gfn0 m).gfnDeactivated = !gfn0 ∧
      (removeMountpath env gfn0 m).ret = GoRet.errOnly m.err) := by
  rw [enableMountpath_fail env gfn0 m h, disableMountpath_fail env gfn0 m h,
    addMountpath_fail env gfn0 m h, removeMountpath_fail env gfn0 m h]
  exact ⟨⟨rfl, rfl, rfl⟩, ⟨rfl, rfl, rfl⟩, ⟨rfl, rfl, rfl⟩, ⟨rfl, rfl, rfl⟩⟩

/-- Witness for C5 (amended): a concrete mutator error (`EEXIST`-like) with
the GFN initially active. -/
theorem noop_or_error_quiesce_wit :
    ((enableMountpath ⟨false, "t2", none, none⟩ true ⟨none, some "EEXIST", []⟩).events = [] ∧
      (enableMountpath ⟨false, "t2", none, none⟩ true ⟨none, some "EEXIST", []⟩).gfnDeactivated = !true ∧
      (enableMountpath ⟨false, "t2", none, none⟩ true ⟨none, some "EEXIST", []⟩).ret =
        GoRet.boolErr false (some "EEXIST")) ∧
    ((disableMountpath ⟨false, "t2", none, none⟩ true ⟨none, some "EEXIST", []⟩).events = [] ∧
      (disableMountpath ⟨false, "t2", none, none⟩ true ⟨none, some "EEXIST", []⟩).gfnDeactivated = !true ∧
      (disableMountpath ⟨false, "t2", none, none⟩ true ⟨none, some "EEXIST", []⟩).ret =
        GoRet.boolErr false (some "EEXIST")) ∧
    ((addMountpath ⟨false, "t2", none, none⟩ true ⟨none, some "EEXIST", []⟩).events = [] ∧
      (addMountpath ⟨false, "t2", none, none⟩ true ⟨none, some "EEXIST", []⟩).gfnDeactivated = !true ∧
      (addMountpath ⟨false, "t2", none, none⟩ true ⟨none, some "EEXIST", []⟩).ret =
        GoRet.errOnly (some "EEXIST")) ∧
    ((removeMountpath ⟨false, "t2", none, none⟩ true ⟨none, some "EEXIST", []⟩).events = [] ∧
      (removeMountpath ⟨false, "t2", none, none⟩ true ⟨none, some "EEXIST", []⟩).gfnDeactivated = !true ∧
      (removeMountpath ⟨false, "t2", none, none⟩ true ⟨none, some "EEXIST", []⟩).ret =
        GoRet.errOnly (some "EEXIST")) :=
  noop_or_error_quiesce ⟨false, "t2", none, none⟩ true ⟨none, some "EEXIST", []⟩ (Or.inl rfl)

/-- Counterexample to C5 as stated: on a no-op, `addMountpath` does not return
a `(changed, error)` pair — its Go signature returns only the error. -/
theorem addMountpath_pair_cex :
    (addMountpath ⟨true, "t1", none, none⟩ false ⟨none, none, []⟩).ret = GoRet.errOnly none ∧
    (addMountpath ⟨true, "t1", none, none⟩ false ⟨none, none, []⟩).ret ≠
      GoRet.boolErr false none :=
  ⟨rfl, by decide⟩

/-- C9 (amended): `enableMountpath` and `disableMountpath` return the pair
`(changed, error)` — `(false, nil)` on a local no-op, `(true, nil)` on a real
transition with only downstream logged failures — while `addMountpath` and
`removeMountpath` return only the error, `nil` in both situations.  (As
stated — all four wrappers return a `(changed, error)` pair — C9 fails on the
signatures of `addMountpath` / `removeMountpath`, see the counterexample.) -/
theorem wrapper_return_policy (env : Env) (gfn0 : Bool) (m : MutOutcome) :
    (m.mpath = none ∧ m.err = none →
      (enableMountpath env gfn0 m).ret = GoRet.boolErr false none ∧
      (disableMountpath env gfn0 m).ret = GoRet.boolErr false none ∧
      (addMountpath env gfn0 m).ret = GoRet.errOnly none ∧
      (removeMountpath env gfn0 m).ret = GoRet.errOnly none) ∧
    (∀ mp, m.mpath = some mp → m.err = none →
      (enableMountpath env gfn0 m).ret = GoRet.boolErr true none ∧
      (disableMountpath env gfn0 m).ret = GoRet.boolErr true none ∧
      (addMountpath env gfn0 m).ret = GoRet.errOnly none ∧
      (removeMountpath env gfn0 m).ret = GoRet.errOnly none) := by
  constructor
  · rintro ⟨hmp, herr⟩
    rw [enableMountpath_fail env gfn0 m (Or.inl hmp),
      disableMountpath_fail env gfn0 m (Or.inl hmp),
      addMountpath_fail env gfn0 m (Or.inl hmp),
      removeMountpath_fail env gfn0 m (Or.inl hmp), herr]
    exact ⟨rfl, rfl, rfl, rfl⟩
  · intro mp hmp herr
    rw [enableMountpath_ok env gfn0 m mp herr hmp,
      disableMountpath_ok env gfn0 m mp herr hmp,
      addMountpath_ok env gfn0 m mp herr hmp,
      removeMountpath_ok env gfn0 m mp herr hmp]
    exact ⟨rfl, rfl, rfl, rfl⟩

/-- Witness for C9 (amended): the no-op side at a concrete no-op input, and
the real-transition side at a concrete transition whose self-enable RPC fails
(a downstream logged failure). -/
theorem wrapper_return_policy_wit :
    ((enableMountpath ⟨true, "t3", some "rpc down", none⟩ false ⟨none, none, []⟩).ret =
        GoRet.boolErr false none ∧
      (disableMountpath ⟨true, "t3", some "rpc down", none⟩ false ⟨none, none, []⟩).ret =
        GoRet.boolErr false none ∧
      (addMountpath ⟨true, "t3", some "rpc down", none⟩ false ⟨none, none, []⟩).ret =
        GoRet.errOnly none ∧
      (removeMountpath ⟨true, "t3", some "rpc down", none⟩ false ⟨none, none, []⟩).ret =
        GoRet.errOnly none) ∧
    ((enableMountpath ⟨true, "t3", some "rpc down", none⟩ false
          ⟨some ⟨"/m9", 9⟩, none, ["/m9"]⟩).ret = GoRet.boolErr true none ∧
      (disableMountpath ⟨true, "t3", some "rpc down", none⟩ false
          ⟨some ⟨"/m9", 9⟩, none, ["/m9"]⟩).ret = GoRet.boolErr true none ∧
      (addMountpath ⟨true, "t3", some "rpc down", none⟩ false
          ⟨some ⟨"/m9", 9⟩, none, ["/m9"]⟩).ret = GoRet.errOnly none ∧
      (removeMountpath ⟨true, "t3", some "rpc down", none⟩ false
          ⟨some ⟨"/m9", 9⟩, none, ["/m9"]⟩).ret = GoRet.errOnly none) :=
  ⟨(wrapper_return_policy ⟨true, "t3", some "rpc down", none⟩ false ⟨none, none, []⟩).1
      ⟨rfl, rfl⟩,
    (wrapper_return_policy ⟨true, "t3", some "rpc down", none⟩ false
        ⟨some ⟨"/m9", 9⟩, none, ["/m9"]⟩).2 ⟨"/m9", 9⟩ rfl rfl⟩

/-- Counterexample to C9 as stated: on a real transition, `removeMountpath`
does not return the pair `(true, nil)` — its Go signature returns only the
(nil) error. -/
theorem removeMountpath_pair_cex :
    (removeMountpath ⟨false, "t4", none, none⟩ true
        ⟨some ⟨"/m2", 5⟩, none, ["/m3"]⟩).ret = GoRet.errOnly none ∧
    (removeMountpath ⟨false, "t4", none, none⟩ true
        ⟨some ⟨"/m2", 5⟩, none, ["/m3"]⟩).ret ≠ GoRet.boolErr true none :=
  ⟨rfl, by decide⟩

/-- Membership facts about `delMpathEvent` on an empty `available` snapshot. -/
theorem delMpathEvent_zero_props (env : Env) (action : String) (mp : MountpathInfo) :
    Event.selfDisable ∈ delMpathEvent env [] action mp ∧
    (∀ e, env.disableErr = some e →
      Event.logZeroMpathFail action env.si e ∈ delMpathEvent env [] action mp ∧
      Event.logZeroMpathOk action env.si ∉ delMpathEvent env [] action mp) ∧
    (env.disableErr = none →
      Event.logZeroMpathOk action env.si ∈ delMpathEvent env [] action mp ∧
      ∀ e, Event.logZeroMpathFail action env.si e ∉ delMpathEvent env [] action mp) ∧
    Event.resilver ∉ delMpathEvent env [] action mp ∧
    (∀ tag, Event.makeNCopies tag ∉ delMpathEvent env [] action mp) := by
  obtain ⟨r, si, ee, de⟩ := env
  rcases de with _ | e <;>
    simp [delMpathEvent, checkZeroMountpaths]

/-- C6: when a real remove or disable transition leaves zero available
mountpaths, the wrapper calls `TargetSelf.disable()` (self-unregister), logs
success or failure through distinct log lines, returns a nil error to the
caller even if the unregistration failed, and skips the resilver +
MakeNCopies dispatch that otherwise follows a remove/disable. -/
theorem zero_mountpath_selfdisable (env : Env) (gfn0 : Bool) (m : MutOutcome)
    (mp : MountpathInfo) (herr : m.err = none) (hmp : m.mpath = some mp)
    (hzero : m.avail = []) :
    ((removeMountpath env gfn0 m).ret = GoRet.errOnly none ∧
      Event.selfDisable ∈ (removeMountpath env gfn0 m).events ∧
      (∀ e, env.disableErr = some e →
        Event.logZeroMpathFail removeMpathAct env.si e ∈ (removeMountpath env gfn0 m).events ∧
        Event.logZeroMpathOk removeMpathAct env.si ∉ (removeMountpath env gfn0 m).events) ∧
      (env.disableErr = none →
        Event.logZeroMpathOk removeMpathAct env.si ∈ (removeMountpath env gfn0 m).events ∧
        ∀ e, Event.logZeroMpathFail removeMpathAct env.si e ∉ (removeMountpath env gfn0 m).events) ∧
      Event.resilver ∉ (removeMountpath env gfn0 m).events ∧
      (∀ tag, Event.makeNCopies tag ∉ (removeMountpath env gfn0 m).events)) ∧
    ((disableMountpath env gfn0 m).ret = GoRet.boolErr true none ∧
      Event.selfDisable ∈ (disableMountpath env gfn0 m).events ∧
      (∀ e, env.disableErr = some e →
        Event.logZeroMpathFail disableMpathAct env.si e ∈ (disableMountpath env gfn0 m).events ∧
        Event.logZeroMpathOk disableMpathAct env.si ∉ (disableMountpath env gfn0 m).events) ∧
      (env.disableErr = none →
        Event.logZeroMpathOk disableMpathAct env.si ∈ (disableMountpath env gfn0 m).events ∧
        ∀ e, Event.logZeroMpathFail disableMpathAct env.si e ∉ (disableMountpath env gfn0 m).events) ∧
      Event.resilver ∉ (disableMountpath env gfn0 m).events ∧
      (∀ tag, Event.makeNCopies tag ∉ (disableMountpath env gfn0 m).events)) := by
  have h1 := delMpathEvent_zero_props env removeMpathAct mp
  have h2 := delMpathEvent_zero_props env disableMpathAct mp
  rw [removeMountpath_ok env gfn0 m mp herr hmp,
    disableMountpath_ok env gfn0 m mp herr hmp, hzero]
  exact ⟨⟨rfl, h1.1, h1.2.1, h1.2.2.1, h1.2.2.2.1, h1.2.2.2.2⟩,
    ⟨rfl, h2.1, h2.2.1, h2.2.2.1, h2.2.2.2.1, h2.2.2.2.2⟩⟩

/-- Witness for C6: removing the last mountpath with a failing
`TargetSelf.disable()` RPC still self-unregisters and returns a nil error. -/
theorem zero_mountpath_selfdisable_wit :
    (removeMountpath ⟨true, "t5", none, some "conn refused"⟩ true
        ⟨some ⟨"/m1", 3⟩, none, []⟩).ret = GoRet.errOnly none ∧
    Event.selfDisable ∈ (removeMountpath ⟨true, "t5", none, some "conn refused"⟩ true
        ⟨some ⟨"/m1", 3⟩, none, []⟩).events :=
  ⟨(zero_mountpath_selfdisable ⟨true, "t5", none, some "conn refused"⟩ true
      ⟨some ⟨"/m1", 3⟩, none, []⟩ ⟨"/m1", 3⟩ rfl rfl rfl).1.1,
    (zero_mountpath_selfdisable ⟨true, "t5", none, some "conn refused"⟩ true
      ⟨some ⟨"/m1", 3⟩, none, []⟩ ⟨"/m1", 3⟩ rfl rfl rfl).1.2.1⟩

/-- Membership facts about `addMpathEvent` when the transitioned mountpath is
in the `available` snapshot (so the snapshot is nonempty). -/
theorem addMpathEvent_selfenable (env : Env) (avail : List String) (action : String)
    (mp : MountpathInfo) (hin : mp.Path ∈ avail) :
    (Event.selfEnable ∈ addMpathEvent env avail action mp ↔ avail.length = 1) ∧
    (Event.logFirstMpath action mp.Path ∈ addMpathEvent env avail action mp ↔
      avail.length = 1) ∧
    (Event.logMpath action mp.Path ∈ addMpathEvent env avail action mp ↔
      1 < avail.length) ∧
    (∀ e, env.enableErr = some e → avail.length = 1 →
      Event.logReRegisterFail env.si e ∈ addMpathEvent env avail action mp) := by
  have hlen : 0 < avail.length := List.length_pos_of_mem hin
  by_cases hl : 1 < avail.length
  · have hne : ¬ avail.length = 1 := by omega
    cases hr : env.resilverEnabled <;>
      simp [addMpathEvent, goResilverMNC, checkEnable, hr, hl, hne]
  · have hl1 : avail.length = 1 := by omega
    rcases he : env.enableErr with _ | e <;> cases hr : env.resilverEnabled <;>
      simp [addMpathEvent, goResilverMNC, checkEnable, hr, hl, hl1, he]

/-- C7: after a real add or enable transition, the target re-registers itself
(`TargetSelf.enable()`) exactly when the transition left exactly one available
mountpath; the "first mountpath" log line is emitted exactly in that case and
the plain "mountpath" line exactly otherwise; a failing re-registration RPC is
logged; and the wrapper still returns a nil error. -/
theorem first_mountpath_selfenable (env : Env) (gfn0 : Bool) (m : MutOutcome)
    (mp : MountpathInfo) (herr : m.err = none) (hmp : m.mpath = some mp)
    (hin : mp.Path ∈ m.avail) :
    ((Event.selfEnable ∈ (addMountpath env gfn0 m).events ↔ m.avail.length = 1) ∧
      (Event.logFirstMpath addMpathAct mp.Path ∈ (addMountpath env gfn0 m).events ↔
        m.avail.length = 1) ∧
      (Event.logMpath addMpathAct mp.Path ∈ (addMountpath env gfn0 m).events ↔
        1 < m.avail.length) ∧
      (∀ e, env.enableErr = some e → m.avail.length = 1 →
        Event.logReRegisterFail env.si e ∈ (addMountpath env gfn0 m).events) ∧
      (addMountpath env gfn0 m).ret = GoRet.errOnly none) ∧
    ((Event.selfEnable ∈ (enableMountpath env gfn0 m).events ↔ m.avail.length = 1) ∧
      (Event.logFirstMpath enableMpathAct mp.Path ∈ (enableMountpath env gfn0 m).events ↔
        m.avail.length = 1) ∧
      (Event.logMpath enableMpathAct mp.Path ∈ (enableMountpath env gfn0 m).events ↔
        1 < m.avail.length) ∧
      (∀ e, env.enableErr = some e → m.avail.length = 1 →
        Event.logReRegisterFail env.si e ∈ (enableMountpath env gfn0 m).events) ∧
      (enableMountpath env gfn0 m).ret = GoRet.boolErr true none) := by
  have ha := addMpathEvent_selfenable env m.avail addMpathAct mp hin
  have hb := addMpathEvent_selfenable env m.avail enableMpathAct mp hin
  rw [addMountpath_ok env gfn0 m mp herr hmp, enableMountpath_ok env gfn0 m mp herr hmp]
  exact ⟨⟨ha.1, ha.2.1, ha.2.2.1, ha.2.2.2, rfl⟩,
    ⟨hb.1, hb.2.1, hb.2.2.1, hb.2.2.2, rfl⟩⟩

/-- Witness for C7: adding the first (single available) mountpath triggers the
self-re-register event and the first-mountpath log line. -/
theorem first_mountpath_selfenable_wit :
    Event.selfEnable ∈ (addMountpath ⟨true, "t6", none, none⟩ false
        ⟨some ⟨"/m1", 3⟩, none, ["/m1"]⟩).events ∧
    Event.logFirstMpath addMpathAct "/m1" ∈ (addMountpath ⟨true, "t6", none, none⟩ false
        ⟨some ⟨"/m1", 3⟩, none, ["/m1"]⟩).events :=
  ⟨(first_mountpath_selfenable ⟨true, "t6", none, none⟩ false
      ⟨some ⟨"/m1", 3⟩, none, ["/m1"]⟩ ⟨"/m1", 3⟩ rfl rfl
      (List.mem_singleton.mpr rfl)).1.1.mpr rfl,
    (first_mountpath_selfenable ⟨true, "t6", none, none⟩ false
      ⟨some ⟨"/m1", 3⟩, none, ["/m1"]⟩ ⟨"/m1", 3⟩ rfl rfl
      (List.mem_singleton.mpr rfl)).1.2.1.mpr rfl⟩

/-- C8: `redistributeMD` persists BMD exactly when `hasEnoughBMDCopies()` is
false; it then (whenever the BMD step did not already terminate the process)
creates and persists a new VMD stamped with this target's id; and a
persistence failure in an executed step terminates the process (`exitMsg`
set) rather than surfacing through an error return — the function has no
error channel. -/
theorem redistributeMD_policy (env : MDEnv) :
    (MDStep.persistBMD ∈ (redistributeMD env).steps ↔ env.hasEnoughBMDCopies = false) ∧
    ((env.hasEnoughBMDCopies = false → env.bmdPersistErr = none) →
      MDStep.createVMD env.tid ∈ (redistributeMD env).steps) ∧
    ((redistributeMD env).exitMsg.isSome ↔
      (env.hasEnoughBMDCopies = false ∧ env.bmdPersistErr.isSome) ∨
      ((env.hasEnoughBMDCopies = true ∨ env.bmdPersistErr = none) ∧ env.vmdErr.isSome)) := by
  obtain ⟨enough, be, tid, ve⟩ := env
  cases enough <;> rcases be with _ | e1 <;> rcases ve with _ | e2 <;>
    simp [redistributeMD]

/-- Witness for C8: a run with too few BMD copies and no persistence failure
performs the BMD step and then the VMD step, and does not exit. -/
theorem redistributeMD_policy_wit :
    MDStep.createVMD "t7" ∈ (redistributeMD ⟨false, none, "t7", none⟩).steps ∧
    (MDStep.persistBMD ∈ (redistributeMD ⟨false, none, "t7", none⟩).steps ↔
      (false : Bool) = false) :=
  ⟨(redistributeMD_policy ⟨false, none, "t7", none⟩).2.1 (fun _ => rfl),
    (redistributeMD_policy ⟨false, none, "t7", none⟩).1⟩
